import Mathlib

/-!
Shallow embedding of `collector/logs_query.go` (and its companion files in the
same package): the `Tasks` and `LogsQueries` Prometheus collectors of the
elasticsearch exporter, their response schema types, metric extraction
functions, and the scrape bookkeeping protocol.

Go maps are modelled as association lists (iteration order never affects the
sums and counts computed here); Go `int` fields are modelled as `Int` with
Go's truncated division (`Int.tdiv`); `float64(count)` conversions are kept
as exact integers, since every emitted value is an integer count or a 0/1
gauge.  The HTTP round trip is abstracted as an `HttpResult` input describing
what the wire returned; the control flow of `getAndParseURL` and `Collect`
over that input is embedded faithfully.
-/

namespace Collector

/-- `Header` from the source: an empty struct. -/
structure Header where
deriving DecidableEq

/-- `Task` from the source (`json:"..."` field tags omitted).
`RunningTimeInNanos` is a Go `int`, modelled as `Int`. -/
structure Task where
  node : String
  id : Int
  type : String
  action : String
  startTimeInMillis : Int
  runningTimeInNanos : Int
  cancellable : Bool
  parentTaskId : String
  headers : List (String × Header)
deriving DecidableEq

/-- `Node` from the source; the `tasks` Go map is an association list. -/
structure Node where
  name : String
  transportAddress : String
  host : String
  ip : String
  roles : List String
  tasks : List (String × Task)
deriving DecidableEq

/-- `TasksResponse` from the source; the `nodes` Go map is an association list. -/
structure TasksResponse where
  nodes : List (String × Node)
deriving DecidableEq

/-- Modelled from the spec: the declaration of `NetworkDiscoveryErrorQueryResponse`
is referenced by `logs_query.go` (`response.Hits.Total`) but is not among the
provided source files; the spec gives its decoded shape as
`{"hits":{"total": <int>}}`. -/
structure Hits where
  total : Int
deriving DecidableEq

/-- Modelled from the spec: see `Hits`. -/
structure NetworkDiscoveryErrorQueryResponse where
  hits : Hits
deriving DecidableEq

/-- The `total` extraction function declared inline in `NewTasks`:
`count := 0; for _, node := range tasks.Nodes { count += len(node.Tasks) }`. -/
def Tasks.totalValue (tasks : TasksResponse) : Nat :=
  tasks.nodes.foldl (fun count node => count + node.2.tasks.length) 0

/-- The `total_gt_1s` extraction function declared inline in `NewTasks`:
for each task, `ms := task.RunningTimeInNanos / 1000000` (Go truncated
division) and the count is incremented when `ms > 1000`. -/
def Tasks.totalGt1sValue (tasks : TasksResponse) : Nat :=
  tasks.nodes.foldl
    (fun count node =>
      node.2.tasks.foldl
        (fun count task =>
          let ms := task.2.runningTimeInNanos.tdiv 1000000
          if ms > 1000 then count + 1 else count)
        count)
    0

/-- The `total_network_discovery_error` extraction function declared inline in
`NewLogsQueries`: `float64(response.Hits.Total)`. -/
def LogsQueries.totalNetworkDiscoveryErrorValue
    (response : NetworkDiscoveryErrorQueryResponse) : Int :=
  response.hits.total

/-- A task record with a given running time; all other fields are irrelevant to
the extraction functions. -/
def taskWithNanos (r : Int) : Task :=
  { node := "n1", id := 1, type := "transport", action := "indices:data",
    startTimeInMillis := 0, runningTimeInNanos := r, cancellable := false,
    parentTaskId := "", headers := [] }

/-- A response with a single node holding a single task with running time `r`. -/
def singleTaskResponse (r : Int) : TasksResponse :=
  { nodes := [("node1",
      { name := "node1", transportAddress := "127.0.0.1:9300", host := "127.0.0.1",
        ip := "127.0.0.1", roles := [], tasks := [("node1:1", taskWithNanos r)] })] }

/-- What the wire returned for one HTTP round trip, as observed by
`getAndParseURL`: either the request itself failed (`client.Get` / `client.Do`
returned an error before any response existed), or a response with some status
code was obtained whose body then either decodes to a value or fails to
decode. -/
inductive HttpResult (α : Type) where
  | failure
  | response (status : Nat) (decoded : Option α)

/-- An HTTP response object was obtained (so a body exists to be closed). -/
def HttpResult.obtainedResponse {α : Type} : HttpResult α → Bool
  | .failure => false
  | .response _ _ => true

/-- The round trip ends in an error returned by `getAndParseURL`: transport
failure, non-200 status, or decode failure. -/
def HttpResult.failed {α : Type} : HttpResult α → Bool
  | .failure => true
  | .response status decoded => status != 200 || decoded.isNone

/-- A body was obtained with status 200 and JSON decoding of it failed. -/
def HttpResult.isDecodeFailure {α : Type} : HttpResult α → Bool
  | .response status none => status == 200
  | _ => false

/-- The observable effects of one `getAndParseURL` call: the returned value
(`none` models a returned Go `error`), how often `jsonParseFailures.Inc()` ran,
how often `res.Body.Close()` ran, and how often a close failure was logged. -/
structure ParseEffects (α : Type) where
  result : Option α
  parseFailuresInc : Nat
  bodyCloses : Nat
  closeFailureLogs : Nat
deriving DecidableEq

/-- Shallow embedding of `(s *Tasks) getAndParseURL`: on transport error return
the wrapped error (no response, so the deferred close never runs); otherwise the
deferred `res.Body.Close()` runs exactly once on every return path, a close
failure is logged via `level.Warn` but cannot change the returned error (the
function's return value is unnamed, so the deferred assignment `err = ...` does
not alter it); a non-200 status returns an error without touching the parse
counter; a decode failure increments `jsonParseFailures` and returns the error;
otherwise the decoded value is produced.  The counter increment is returned as
an effect count and applied to the collector state by the caller. -/
def Tasks.getAndParseURL (α : Type) (r : HttpResult α) (closeFails : Bool) :
    ParseEffects α :=
  match r with
  | .failure =>
    { result := none, parseFailuresInc := 0, bodyCloses := 0, closeFailureLogs := 0 }
  | .response status decoded =>
    let closeLogs : Nat := if closeFails then 1 else 0
    if status ≠ 200 then
      { result := none, parseFailuresInc := 0, bodyCloses := 1,
        closeFailureLogs := closeLogs }
    else
      match decoded with
      | none =>
        { result := none, parseFailuresInc := 1, bodyCloses := 1,
          closeFailureLogs := closeLogs }
      | some v =>
        { result := some v, parseFailuresInc := 0, bodyCloses := 1,
          closeFailureLogs := closeLogs }

/-- Shallow embedding of `(s *LogsQueries) getAndParseURL`, whose body is
textually identical to the `Tasks` version (only the request issued first
differs, see `LogsQueries.scrapeRequest`). -/
def LogsQueries.getAndParseURL (α : Type) (r : HttpResult α) (closeFails : Bool) :
    ParseEffects α :=
  match r with
  | .failure =>
    { result := none, parseFailuresInc := 0, bodyCloses := 0, closeFailureLogs := 0 }
  | .response status decoded =>
    let closeLogs : Nat := if closeFails then 1 else 0
    if status ≠ 200 then
      { result := none, parseFailuresInc := 0, bodyCloses := 1,
        closeFailureLogs := closeLogs }
    else
      match decoded with
      | none =>
        { result := none, parseFailuresInc := 1, bodyCloses := 1,
          closeFailureLogs := closeLogs }
      | some v =>
        { result := some v, parseFailuresInc := 0, bodyCloses := 1,
          closeFailureLogs := closeLogs }

/-- The metric descriptors the `Tasks` collector ever deals in: the two
extraction descriptors built in `NewTasks` plus the three bookkeeping ones. -/
inductive TasksDesc where
  | total
  | totalGt1s
  | up
  | totalScrapes
  | jsonParseFailures
deriving DecidableEq

/-- The metric descriptors of the `LogsQueries` collector. -/
inductive QueriesDesc where
  | totalNetworkDiscoveryError
  | up
  | totalScrapes
  | jsonParseFailures
deriving DecidableEq

/-- The mutable-state-plus-construction-time data of a `Tasks` collector: the
`up` gauge value, the two counters, and the `taskMetrics` slice of
(descriptor, extraction function) pairs set once in `NewTasks` and never
written afterwards.  The logger, client and url fields carry no state observed
by these claims. -/
structure Tasks where
  up : Int
  totalScrapes : Nat
  jsonParseFailures : Nat
  taskMetrics : List (TasksDesc × (TasksResponse → Int))

/-- `NewTasks`: gauges and counters start at zero (fresh prometheus
gauge/counter), and the two extraction metrics are registered in order. -/
def NewTasks : Tasks :=
  { up := 0, totalScrapes := 0, jsonParseFailures := 0,
    taskMetrics :=
      [(TasksDesc.total, fun tasks => (Tasks.totalValue tasks : Int)),
       (TasksDesc.totalGt1s, fun tasks => (Tasks.totalGt1sValue tasks : Int))] }

/-- `(s *Tasks) Describe`: the extraction descriptors in order, then the
descriptors of `up`, `totalScrapes` and `jsonParseFailures`.  It reads only
fields set at construction. -/
def Tasks.Describe (s : Tasks) : List TasksDesc :=
  s.taskMetrics.map Prod.fst
    ++ [TasksDesc.up, TasksDesc.totalScrapes, TasksDesc.jsonParseFailures]

/-- The three bookkeeping metrics sent by the deferred block of
`(s *Tasks) Collect`, carrying the state's current values. -/
def Tasks.bookkeeping (s : Tasks) : List (TasksDesc × Int) :=
  [(TasksDesc.up, s.up), (TasksDesc.totalScrapes, (s.totalScrapes : Int)),
   (TasksDesc.jsonParseFailures, (s.jsonParseFailures : Int))]

/-- `s.totalScrapes.Inc()`: the first statement of `Collect`, executed before
the fetch is attempted. -/
def Tasks.incScrapes (s : Tasks) : Tasks :=
  { s with totalScrapes := s.totalScrapes + 1 }

/-- Everything `(s *Tasks) Collect` does after the initial
`s.totalScrapes.Inc()`: fetch and decode via `getAndParseURL` (applying its
parse-failure increments), then on error set `up` to 0, log, and emit only the
deferred bookkeeping metrics; on success set `up` to 1, emit one value per
entry of `taskMetrics`, then the deferred bookkeeping metrics. -/
def Tasks.collectAfterInc (s : Tasks) (r : HttpResult TasksResponse)
    (closeFails : Bool) : Tasks × List (TasksDesc × Int) :=
  let eff := Tasks.getAndParseURL TasksResponse r closeFails
  let s := { s with jsonParseFailures := s.jsonParseFailures + eff.parseFailuresInc }
  match eff.result with
  | none =>
    let s := { s with up := 0 }
    (s, s.bookkeeping)
  | some resp =>
    let s := { s with up := 1 }
    (s, s.taskMetrics.map (fun m => (m.1, m.2 resp)) ++ s.bookkeeping)

/-- `(s *Tasks) Collect`: increment the scrape counter, then run the rest. -/
def Tasks.Collect (s : Tasks) (r : HttpResult TasksResponse) (closeFails : Bool) :
    Tasks × List (TasksDesc × Int) :=
  (s.incScrapes).collectAfterInc r closeFails

/-- The state and construction-time data of a `LogsQueries` collector,
mirroring `Tasks`. -/
structure LogsQueries where
  up : Int
  totalScrapes : Nat
  jsonParseFailures : Nat
  networkDiscoveryErrorQueryMetrics :
    List (QueriesDesc × (NetworkDiscoveryErrorQueryResponse → Int))

/-- `NewLogsQueries`: one extraction metric, `total_network_discovery_error`. -/
def NewLogsQueries : LogsQueries :=
  { up := 0, totalScrapes := 0, jsonParseFailures := 0,
    networkDiscoveryErrorQueryMetrics :=
      [(QueriesDesc.totalNetworkDiscoveryError,
        fun response => LogsQueries.totalNetworkDiscoveryErrorValue response)] }

/-- `(s *LogsQueries) Describe`. -/
def LogsQueries.Describe (s : LogsQueries) : List QueriesDesc :=
  s.networkDiscoveryErrorQueryMetrics.map Prod.fst
    ++ [QueriesDesc.up, QueriesDesc.totalScrapes, QueriesDesc.jsonParseFailures]

/-- The deferred bookkeeping emission of `(s *LogsQueries) Collect`. -/
def LogsQueries.bookkeeping (s : LogsQueries) : List (QueriesDesc × Int) :=
  [(QueriesDesc.up, s.up), (QueriesDesc.totalScrapes, (s.totalScrapes : Int)),
   (QueriesDesc.jsonParseFailures, (s.jsonParseFailures : Int))]

/-- `s.totalScrapes.Inc()`: the first statement of `LogsQueries.Collect`. -/
def LogsQueries.incScrapes (s : LogsQueries) : LogsQueries :=
  { s with totalScrapes := s.totalScrapes + 1 }

/-- Everything `(s *LogsQueries) Collect` does after `s.totalScrapes.Inc()`. -/
def LogsQueries.collectAfterInc (s : LogsQueries)
    (r : HttpResult NetworkDiscoveryErrorQueryResponse) (closeFails : Bool) :
    LogsQueries × List (QueriesDesc × Int) :=
  let eff := LogsQueries.getAndParseURL NetworkDiscoveryErrorQueryResponse r closeFails
  let s := { s with jsonParseFailures := s.jsonParseFailures + eff.parseFailuresInc }
  match eff.result with
  | none =>
    let s := { s with up := 0 }
    (s, s.bookkeeping)
  | some resp =>
    let s := { s with up := 1 }
    (s, s.networkDiscoveryErrorQueryMetrics.map (fun m => (m.1, m.2 resp))
        ++ s.bookkeeping)

/-- `(s *LogsQueries) Collect`. -/
def LogsQueries.Collect (s : LogsQueries)
    (r : HttpResult NetworkDiscoveryErrorQueryResponse) (closeFails : Bool) :
    LogsQueries × List (QueriesDesc × Int) :=
  (s.incScrapes).collectAfterInc r closeFails

/-- Which `http.Client` a fetch uses: the one injected at construction and
stored in the collector struct, or a fresh `&http.Client\x7b\x7d` built inside
the fetch function itself. -/
inductive ClientKind where
  | injected
  | fresh
deriving DecidableEq

/-- The request one fetch issues: HTTP method, the suffix `path.Join`ed onto
the base URL's path, the optional request body, the optional Content-Type
header, and which client performs it. -/
structure ScrapeRequest where
  method : String
  pathSuffix : String
  body : Option String
  contentType : Option String
  client : ClientKind
deriving DecidableEq

/-- The `jsonStr` raw-string literal of `getNetworkDiscoveryReq`, transcribed
byte for byte (braces written as escapes). -/
def networkDiscoveryQueryBody : String :=
  "\x7b\n"
  ++ "\t\"query\": \x7b\n"
  ++ "\t\t\"bool\": \x7b\n"
  ++ "\t\t\t\"must\": [\x7b\n"
  ++ "\t\t\t\t\"match_all\": \x7b\x7d\n"
  ++ "\t\t\t\x7d, \x7b\n"
  ++ "\t\t\t\t\"bool\": \x7b\n"
  ++ "\t\t\t\t\t\"should\": [\x7b\n"
  ++ "\t\t\t\t\t\t\"match_phrase\": \x7b\n"
  ++ "\t\t\t\t\t\t\t\"message\": \"send message failed\"\n"
  ++ "\t\t\t\t\t\t\x7d\n"
  ++ "\t\t\t\t\t\x7d, \x7b\n"
  ++ "\t\t\t\t\t\t\"match_phrase\": \x7b\n"
  ++ "\t\t\t\t\t\t\t\"message\": \"NodeNotConnectedException\"\n"
  ++ "\t\t\t\t\t\t\x7d\n"
  ++ "\t\t\t\t\t\x7d]\n"
  ++ "\t\t\t\t\x7d\n"
  ++ "\t\t\t\x7d, \x7b\n"
  ++ "\t\t\t\t\"range\": \x7b\n"
  ++ "\t\t\t\t\t\"@timestamp\": \x7b\n"
  ++ "\t\t\t\t\t\t\"gt\" :  \"now-5m\",\n"
  ++ "\t\t\t\t\t\t\"format\": \"epoch_millis\"\n"
  ++ "\t\t\t\t\t\x7d\n"
  ++ "\t\t\t\t\x7d\n"
  ++ "\t\t\t\x7d],\n"
  ++ "\t\t\t\"must_not\": [\x7b\n"
  ++ "\t\t\t\t\"match_phrase\": \x7b\n"
  ++ "\t\t\t\t\t\"message\": \x7b\n"
  ++ "\t\t\t\t\t\t\"query\": \"0.0.0.0\"\n"
  ++ "\t\t\t\t\t\x7d\n"
  ++ "\t\t\t\t\x7d\n"
  ++ "\t\t\t\x7d]\n"
  ++ "\t\t\x7d\n"
  ++ "\t\x7d\n"
  ++ "\x7d"

/-- The request issued by the tasks collector: `fetchAndDecodeTasks` joins
`"/_tasks"` onto the base path and `getAndParseURL` runs
`s.client.Get(u.String())` — a GET with no body on the injected client. -/
def Tasks.scrapeRequest : ScrapeRequest :=
  { method := "GET", pathSuffix := "/_tasks", body := none, contentType := none,
    client := ClientKind.injected }

/-- The request issued by the error-query collector: `fetchAndDecodeTasks`
joins `"/elasticsearch-*/_search"` onto the base path and
`getNetworkDiscoveryReq` builds a POST carrying `jsonStr` with
`Content-Type: application/json`, then executes it on a freshly constructed
`client := &http.Client\x7b\x7d` — not on the injected `s.client`. -/
def LogsQueries.scrapeRequest : ScrapeRequest :=
  { method := "POST", pathSuffix := "/elasticsearch-*/_search",
    body := some networkDiscoveryQueryBody,
    contentType := some "application/json",
    client := ClientKind.fresh }

/-- A `Tasks` collector with the construction-time metric list of `NewTasks`
and arbitrary current counter values. -/
def Tasks.withCounters (u : Int) (ts pf : Nat) : Tasks :=
  { up := u, totalScrapes := ts, jsonParseFailures := pf,
    taskMetrics := NewTasks.taskMetrics }

/-- A `LogsQueries` collector with the metric list of `NewLogsQueries` and
arbitrary current counter values. -/
def LogsQueries.withCounters (u : Int) (ts pf : Nat) : LogsQueries :=
  { up := u, totalScrapes := ts, jsonParseFailures := pf,
    networkDiscoveryErrorQueryMetrics :=
      NewLogsQueries.networkDiscoveryErrorQueryMetrics }

theorem foldl_if_count {α : Type} (p : α → Prop) [DecidablePred p] :
    ∀ (l : List α) (n : Nat),
      l.foldl (fun c a => if p a then c + 1 else c) n
        = n + (l.filter (fun a => decide (p a))).length := by
  intro l
  induction l with
  | nil => intro n; simp
  | cons a l ih =>
    intro n
    by_cases h : p a
    · simp [List.foldl_cons, List.filter_cons, h, ih]
      omega
    · simp [List.foldl_cons, List.filter_cons, h, ih]

theorem foldl_add_map {α : Type} (f : α → Nat) :
    ∀ (l : List α) (n : Nat),
      l.foldl (fun c a => c + f a) n = n + (l.map f).sum := by
  intro l
  induction l with
  | nil => intro n; simp
  | cons a l ih =>
    intro n
    simp [List.foldl_cons, ih]
    omega

theorem totalValue_eq_sum (resp : TasksResponse) :
    Tasks.totalValue resp = (resp.nodes.map (fun node => node.2.tasks.length)).sum := by
  have h := foldl_add_map (fun node : String × Node => node.2.tasks.length) resp.nodes 0
  simpa [Tasks.totalValue] using h

theorem totalGt1sValue_eq_sum (resp : TasksResponse) :
    Tasks.totalGt1sValue resp
      = (resp.nodes.map
          (fun node =>
            (node.2.tasks.filter
              (fun t => decide (t.2.runningTimeInNanos.tdiv 1000000 > 1000))).length)).sum := by
  have hinner : ∀ (node : String × Node) (c : Nat),
      node.2.tasks.foldl
        (fun count task =>
          let ms := task.2.runningTimeInNanos.tdiv 1000000
          if ms > 1000 then count + 1 else count)
        c
        = c + (node.2.tasks.filter
            (fun t => decide (t.2.runningTimeInNanos.tdiv 1000000 > 1000))).length := by
    intro node c
    exact foldl_if_count
      (fun t : String × Task => t.2.runningTimeInNanos.tdiv 1000000 > 1000) node.2.tasks c
  have h : Tasks.totalGt1sValue resp
      = resp.nodes.foldl
          (fun c node => c + (node.2.tasks.filter
            (fun t => decide (t.2.runningTimeInNanos.tdiv 1000000 > 1000))).length) 0 := by
    unfold Tasks.totalGt1sValue
    congr 1
    funext c node
    exact hinner node c
  rw [h]
  simpa using foldl_add_map
    (fun node : String × Node =>
      (node.2.tasks.filter
        (fun t => decide (t.2.runningTimeInNanos.tdiv 1000000 > 1000))).length)
    resp.nodes 0

/-- Claim C1: a task is counted by the `total_gt_1s` extraction function iff its
`running_time_in_nanos` divided by 1,000,000 with (truncated) integer division is
strictly greater than 1000; in particular a task of exactly 1000 ms
(r = 1,000,000,000) is not counted, while 1001 ms is. -/
theorem tasks_totalGt1s_counts_iff (resp : TasksResponse) :
    Tasks.totalGt1sValue resp
      = (resp.nodes.map
          (fun node =>
            (node.2.tasks.filter
              (fun t => t.2.runningTimeInNanos.tdiv 1000000 > 1000)).length)).sum
    ∧ Tasks.totalGt1sValue (singleTaskResponse 1000000000) = 0
    ∧ Tasks.totalGt1sValue (singleTaskResponse 1000999999) = 0
    ∧ Tasks.totalGt1sValue (singleTaskResponse 1001000000) = 1 := by
  refine ⟨?_, by decide, by decide, by decide⟩
  exact totalGt1sValue_eq_sum resp

/-- Claim C2: the `total` extraction function returns the sum of the per-node
task-map sizes, and 0 on an empty node map. -/
theorem tasks_total_eq_sum_counts (resp : TasksResponse) :
    Tasks.totalValue resp = (resp.nodes.map (fun node => node.2.tasks.length)).sum
    ∧ Tasks.totalValue { nodes := [] } = 0 :=
  ⟨totalValue_eq_sum resp, by decide⟩

/-- Claim C10: for every decoded response, `total_gt_1s` is at most `total`,
since each long-running task is one of the counted tasks. -/
theorem tasks_totalGt1s_le_total (resp : TasksResponse) :
    Tasks.totalGt1sValue resp ≤ Tasks.totalValue resp := by
  rw [totalGt1sValue_eq_sum, totalValue_eq_sum]
  apply List.sum_le_sum
  intro node _
  exact List.length_filter_le _ _

theorem tasks_cAI_failure (s : Tasks) (c : Bool) :
    s.collectAfterInc HttpResult.failure c
      = ({ s with up := 0 }, Tasks.bookkeeping { s with up := 0 }) := by
  simp [Tasks.collectAfterInc, Tasks.getAndParseURL]

theorem tasks_cAI_badStatus (s : Tasks) (c : Bool) (status : Nat)
    (decoded : Option TasksResponse) (h : status ≠ 200) :
    s.collectAfterInc (HttpResult.response status decoded) c
      = ({ s with up := 0 }, Tasks.bookkeeping { s with up := 0 }) := by
  simp [Tasks.collectAfterInc, Tasks.getAndParseURL, h]

theorem tasks_cAI_decodeFail (s : Tasks) (c : Bool) :
    s.collectAfterInc (HttpResult.response 200 none) c
      = ({ s with jsonParseFailures := s.jsonParseFailures + 1, up := 0 },
         Tasks.bookkeeping { s with jsonParseFailures := s.jsonParseFailures + 1, up := 0 }) := by
  simp [Tasks.collectAfterInc, Tasks.getAndParseURL]

theorem tasks_cAI_ok (s : Tasks) (c : Bool) (resp : TasksResponse) :
    s.collectAfterInc (HttpResult.response 200 (some resp)) c
      = ({ s with up := 1 },
         s.taskMetrics.map (fun m => (m.1, m.2 resp))
           ++ Tasks.bookkeeping { s with up := 1 }) := by
  simp [Tasks.collectAfterInc, Tasks.getAndParseURL]

theorem queries_cAI_failure (s : LogsQueries) (c : Bool) :
    s.collectAfterInc HttpResult.failure c
      = ({ s with up := 0 }, LogsQueries.bookkeeping { s with up := 0 }) := by
  simp [LogsQueries.collectAfterInc, LogsQueries.getAndParseURL]

theorem queries_cAI_badStatus (s : LogsQueries) (c : Bool) (status : Nat)
    (decoded : Option NetworkDiscoveryErrorQueryResponse) (h : status ≠ 200) :
    s.collectAfterInc (HttpResult.response status decoded) c
      = ({ s with up := 0 }, LogsQueries.bookkeeping { s with up := 0 }) := by
  simp [LogsQueries.collectAfterInc, LogsQueries.getAndParseURL, h]

theorem queries_cAI_decodeFail (s : LogsQueries) (c : Bool) :
    s.collectAfterInc (HttpResult.response 200 none) c
      = ({ s with jsonParseFailures := s.jsonParseFailures + 1, up := 0 },
         LogsQueries.bookkeeping
           { s with jsonParseFailures := s.jsonParseFailures + 1, up := 0 }) := by
  simp [LogsQueries.collectAfterInc, LogsQueries.getAndParseURL]

theorem queries_cAI_ok (s : LogsQueries) (c : Bool)
    (resp : NetworkDiscoveryErrorQueryResponse) :
    s.collectAfterInc (HttpResult.response 200 (some resp)) c
      = ({ s with up := 1 },
         s.networkDiscoveryErrorQueryMetrics.map (fun m => (m.1, m.2 resp))
           ++ LogsQueries.bookkeeping { s with up := 1 }) := by
  simp [LogsQueries.collectAfterInc, LogsQueries.getAndParseURL]

theorem tasks_cAI_scrapes (s : Tasks) (r : HttpResult TasksResponse) (c : Bool) :
    (s.collectAfterInc r c).1.totalScrapes = s.totalScrapes := by
  cases r with
  | failure => rw [tasks_cAI_failure]
  | response status decoded =>
    by_cases hs : status = 200
    · subst hs
      cases decoded with
      | none => rw [tasks_cAI_decodeFail]
      | some v => rw [tasks_cAI_ok]
    · rw [tasks_cAI_badStatus _ _ _ _ hs]

theorem queries_cAI_scrapes (s : LogsQueries)
    (r : HttpResult NetworkDiscoveryErrorQueryResponse) (c : Bool) :
    (s.collectAfterInc r c).1.totalScrapes = s.totalScrapes := by
  cases r with
  | failure => rw [queries_cAI_failure]
  | response status decoded =>
    by_cases hs : status = 200
    · subst hs
      cases decoded with
      | none => rw [queries_cAI_decodeFail]
      | some v => rw [queries_cAI_ok]
    · rw [queries_cAI_badStatus _ _ _ _ hs]

theorem tasks_collect_metrics_const (s : Tasks) (r : HttpResult TasksResponse) (c : Bool) :
    ((s.Collect r c).1).taskMetrics = s.taskMetrics := by
  show ((s.incScrapes).collectAfterInc r c).1.taskMetrics = s.taskMetrics
  cases r with
  | failure => rw [tasks_cAI_failure]; rfl
  | response status decoded =>
    by_cases hs : status = 200
    · subst hs
      cases decoded with
      | none => rw [tasks_cAI_decodeFail]; rfl
      | some v => rw [tasks_cAI_ok]; rfl
    · rw [tasks_cAI_badStatus _ _ _ _ hs]; rfl

theorem queries_collect_metrics_const (s : LogsQueries)
    (r : HttpResult NetworkDiscoveryErrorQueryResponse) (c : Bool) :
    ((s.Collect r c).1).networkDiscoveryErrorQueryMetrics
      = s.networkDiscoveryErrorQueryMetrics := by
  show ((s.incScrapes).collectAfterInc r c).1.networkDiscoveryErrorQueryMetrics
      = s.networkDiscoveryErrorQueryMetrics
  cases r with
  | failure => rw [queries_cAI_failure]; rfl
  | response status decoded =>
    by_cases hs : status = 200
    · subst hs
      cases decoded with
      | none => rw [queries_cAI_decodeFail]; rfl
      | some v => rw [queries_cAI_ok]; rfl
    · rw [queries_cAI_badStatus _ _ _ _ hs]; rfl

/-- Claim C3: when the fetch or decode fails (transport error, non-200 status,
or decode error), `Collect` of either collector sets the `up` gauge to 0 and
emits exactly the three bookkeeping metrics — in particular no extraction
metric is emitted. -/
theorem collect_failure_bookkeeping_only (s : Tasks) (q : LogsQueries)
    (r : HttpResult TasksResponse) (r' : HttpResult NetworkDiscoveryErrorQueryResponse)
    (c c' : Bool) (h : r.failed = true) (h' : r'.failed = true) :
    ((s.Collect r c).1.up = 0
      ∧ (s.Collect r c).2 = Tasks.bookkeeping (s.Collect r c).1)
    ∧ ((q.Collect r' c').1.up = 0
      ∧ (q.Collect r' c').2 = LogsQueries.bookkeeping (q.Collect r' c').1) := by
  constructor
  · show ((s.incScrapes).collectAfterInc r c).1.up = 0
      ∧ ((s.incScrapes).collectAfterInc r c).2
          = Tasks.bookkeeping ((s.incScrapes).collectAfterInc r c).1
    cases r with
    | failure =>
      rw [tasks_cAI_failure]
      exact ⟨rfl, rfl⟩
    | response status decoded =>
      cases decoded with
      | some v =>
        have hs : status ≠ 200 := by
          simpa [HttpResult.failed] using h
        rw [tasks_cAI_badStatus _ _ _ _ hs]
        exact ⟨rfl, rfl⟩
      | none =>
        by_cases hs : status = 200
        · subst hs
          rw [tasks_cAI_decodeFail]
          exact ⟨rfl, rfl⟩
        · rw [tasks_cAI_badStatus _ _ _ _ hs]
          exact ⟨rfl, rfl⟩
  · show ((q.incScrapes).collectAfterInc r' c').1.up = 0
      ∧ ((q.incScrapes).collectAfterInc r' c').2
          = LogsQueries.bookkeeping ((q.incScrapes).collectAfterInc r' c').1
    cases r' with
    | failure =>
      rw [queries_cAI_failure]
      exact ⟨rfl, rfl⟩
    | response status decoded =>
      cases decoded with
      | some v =>
        have hs : status ≠ 200 := by
          simpa [HttpResult.failed] using h'
        rw [queries_cAI_badStatus _ _ _ _ hs]
        exact ⟨rfl, rfl⟩
      | none =>
        by_cases hs : status = 200
        · subst hs
          rw [queries_cAI_decodeFail]
          exact ⟨rfl, rfl⟩
        · rw [queries_cAI_badStatus _ _ _ _ hs]
          exact ⟨rfl, rfl⟩

/-- Witness for claim C3: a transport failure on the tasks collector and an
HTTP 500 on the error-query collector, both from freshly constructed
collectors. -/
theorem collect_failure_bookkeeping_only_witness :
    ((NewTasks.Collect HttpResult.failure false).1.up = 0
      ∧ (NewTasks.Collect HttpResult.failure false).2
          = Tasks.bookkeeping (NewTasks.Collect HttpResult.failure false).1)
    ∧ ((NewLogsQueries.Collect (HttpResult.response 500 none) true).1.up = 0
      ∧ (NewLogsQueries.Collect (HttpResult.response 500 none) true).2
          = LogsQueries.bookkeeping
              (NewLogsQueries.Collect (HttpResult.response 500 none) true).1) :=
  collect_failure_bookkeeping_only NewTasks NewLogsQueries
    HttpResult.failure (HttpResult.response 500 none) false true rfl rfl

/-- Claim C4: each `Collect` call of either collector increments the scrape
counter exactly once, as its first action before the fetch is attempted
(`Collect` is definitionally the increment followed by `collectAfterInc`, and
the latter — which contains the fetch, decode, and emission for every outcome
`r` — never changes the scrape counter). -/
theorem collect_increments_scrapes_once_before_fetch (s : Tasks) (q : LogsQueries)
    (r : HttpResult TasksResponse) (r' : HttpResult NetworkDiscoveryErrorQueryResponse)
    (c c' : Bool) :
    s.Collect r c = (s.incScrapes).collectAfterInc r c
    ∧ (s.Collect r c).1.totalScrapes = s.totalScrapes + 1
    ∧ (s.collectAfterInc r c).1.totalScrapes = s.totalScrapes
    ∧ q.Collect r' c' = (q.incScrapes).collectAfterInc r' c'
    ∧ (q.Collect r' c').1.totalScrapes = q.totalScrapes + 1
    ∧ (q.collectAfterInc r' c').1.totalScrapes = q.totalScrapes :=
  ⟨rfl, tasks_cAI_scrapes (s.incScrapes) r c, tasks_cAI_scrapes s r c,
   rfl, queries_cAI_scrapes (q.incScrapes) r' c', queries_cAI_scrapes q r' c'⟩

/-- Claim C5: `jsonParseFailures` grows by exactly 1 iff the round trip
obtained a status-200 body whose JSON decoding failed, and is unchanged on a
transport failure or non-200 status (and on success). -/
theorem parse_failures_increment_iff_decode_failure (s : Tasks) (q : LogsQueries)
    (r : HttpResult TasksResponse) (r' : HttpResult NetworkDiscoveryErrorQueryResponse)
    (c c' : Bool) :
    (s.Collect r c).1.jsonParseFailures
      = s.jsonParseFailures + (if r.isDecodeFailure then 1 else 0)
    ∧ (q.Collect r' c').1.jsonParseFailures
      = q.jsonParseFailures + (if r'.isDecodeFailure then 1 else 0) := by
  constructor
  · show ((s.incScrapes).collectAfterInc r c).1.jsonParseFailures
      = s.jsonParseFailures + (if r.isDecodeFailure then 1 else 0)
    cases r with
    | failure =>
      rw [tasks_cAI_failure]
      simp [HttpResult.isDecodeFailure, Tasks.incScrapes]
    | response status decoded =>
      by_cases hs : status = 200
      · subst hs
        cases decoded with
        | none =>
          rw [tasks_cAI_decodeFail]
          simp [HttpResult.isDecodeFailure, Tasks.incScrapes]
        | some v =>
          rw [tasks_cAI_ok]
          simp [HttpResult.isDecodeFailure, Tasks.incScrapes]
      · cases decoded with
        | none =>
          rw [tasks_cAI_badStatus _ _ _ _ hs]
          simp [HttpResult.isDecodeFailure, Tasks.incScrapes, hs]
        | some v =>
          rw [tasks_cAI_badStatus _ _ _ _ hs]
          simp [HttpResult.isDecodeFailure, Tasks.incScrapes]
  · show ((q.incScrapes).collectAfterInc r' c').1.jsonParseFailures
      = q.jsonParseFailures + (if r'.isDecodeFailure then 1 else 0)
    cases r' with
    | failure =>
      rw [queries_cAI_failure]
      simp [HttpResult.isDecodeFailure, LogsQueries.incScrapes]
    | response status decoded =>
      by_cases hs : status = 200
      · subst hs
        cases decoded with
        | none =>
          rw [queries_cAI_decodeFail]
          simp [HttpResult.isDecodeFailure, LogsQueries.incScrapes]
        | some v =>
          rw [queries_cAI_ok]
          simp [HttpResult.isDecodeFailure, LogsQueries.incScrapes]
      · cases decoded with
        | none =>
          rw [queries_cAI_badStatus _ _ _ _ hs]
          simp [HttpResult.isDecodeFailure, LogsQueries.incScrapes, hs]
        | some v =>
          rw [queries_cAI_badStatus _ _ _ _ hs]
          simp [HttpResult.isDecodeFailure, LogsQueries.incScrapes]

/-- Claim C6: on a successful fetch and decode, `up` is set to 1 and the
emission is exactly one value per declared extraction descriptor (two for the
tasks collector, one for the error-query collector) followed by the three
bookkeeping metrics; and on every outcome the emission is an
extraction-descriptor-only prefix followed by the three bookkeeping metrics of
the final state, emitted once at the end (the Go `defer`). -/
theorem collect_success_emissions_and_bookkeeping_order
    (u u' : Int) (ts pf ts' pf' : Nat) (resp : TasksResponse)
    (resp' : NetworkDiscoveryErrorQueryResponse) (c c' d d' : Bool)
    (r : HttpResult TasksResponse)
    (r' : HttpResult NetworkDiscoveryErrorQueryResponse) :
    (Tasks.withCounters u ts pf).Collect (HttpResult.response 200 (some resp)) c
      = (Tasks.withCounters 1 (ts + 1) pf,
         [(TasksDesc.total, (Tasks.totalValue resp : Int)),
          (TasksDesc.totalGt1s, (Tasks.totalGt1sValue resp : Int)),
          (TasksDesc.up, 1), (TasksDesc.totalScrapes, ((ts + 1 : Nat) : Int)),
          (TasksDesc.jsonParseFailures, (pf : Int))])
    ∧ (LogsQueries.withCounters u' ts' pf').Collect
          (HttpResult.response 200 (some resp')) c'
      = (LogsQueries.withCounters 1 (ts' + 1) pf',
         [(QueriesDesc.totalNetworkDiscoveryError,
           LogsQueries.totalNetworkDiscoveryErrorValue resp'),
          (QueriesDesc.up, 1), (QueriesDesc.totalScrapes, ((ts' + 1 : Nat) : Int)),
          (QueriesDesc.jsonParseFailures, (pf' : Int))])
    ∧ (∃ l, ((Tasks.withCounters u ts pf).Collect r d).2
          = l ++ Tasks.bookkeeping ((Tasks.withCounters u ts pf).Collect r d).1
        ∧ l.all
            (fun m => decide (m.1 = TasksDesc.total ∨ m.1 = TasksDesc.totalGt1s))
              = true)
    ∧ (∃ l, ((LogsQueries.withCounters u' ts' pf').Collect r' d').2
          = l ++ LogsQueries.bookkeeping
              ((LogsQueries.withCounters u' ts' pf').Collect r' d').1
        ∧ l.all (fun m => decide (m.1 = QueriesDesc.totalNetworkDiscoveryError))
            = true) := by
  refine ⟨rfl, rfl, ?_, ?_⟩
  · simp only [Tasks.Collect]
    cases r with
    | failure =>
      rw [tasks_cAI_failure]
      exact ⟨[], rfl, rfl⟩
    | response status decoded =>
      by_cases hs : status = 200
      · subst hs
        cases decoded with
        | none =>
          rw [tasks_cAI_decodeFail]
          exact ⟨[], rfl, rfl⟩
        | some v =>
          rw [tasks_cAI_ok]
          exact ⟨_, rfl, rfl⟩
      · rw [tasks_cAI_badStatus _ _ _ _ hs]
        exact ⟨[], rfl, rfl⟩
  · simp only [LogsQueries.Collect]
    cases r' with
    | failure =>
      rw [queries_cAI_failure]
      exact ⟨[], rfl, rfl⟩
    | response status decoded =>
      by_cases hs : status = 200
      · subst hs
        cases decoded with
        | none =>
          rw [queries_cAI_decodeFail]
          exact ⟨[], rfl, rfl⟩
        | some v =>
          rw [queries_cAI_ok]
          exact ⟨_, rfl, rfl⟩
      · rw [queries_cAI_badStatus _ _ _ _ hs]
        exact ⟨[], rfl, rfl⟩

/-- Claim C8: `Describe` of each collector is the fixed construction-time
descriptor list (extraction descriptors followed by up, total_scrapes and
json_parse_failures), is unchanged by any `Collect` call, and contains every
descriptor `Collect` can ever emit. -/
theorem describe_static_and_complete :
    NewTasks.Describe
      = [TasksDesc.total, TasksDesc.totalGt1s, TasksDesc.up, TasksDesc.totalScrapes,
         TasksDesc.jsonParseFailures]
    ∧ NewLogsQueries.Describe
      = [QueriesDesc.totalNetworkDiscoveryError, QueriesDesc.up,
         QueriesDesc.totalScrapes, QueriesDesc.jsonParseFailures]
    ∧ (∀ (s : Tasks) (r : HttpResult TasksResponse) (c : Bool),
        ((s.Collect r c).1).Describe = s.Describe)
    ∧ (∀ (q : LogsQueries) (r' : HttpResult NetworkDiscoveryErrorQueryResponse)
          (c' : Bool),
        ((q.Collect r' c').1).Describe = q.Describe)
    ∧ (∀ (u : Int) (ts pf : Nat) (r : HttpResult TasksResponse) (c : Bool),
        (((Tasks.withCounters u ts pf).Collect r c).2.map Prod.fst).all
          (fun desc => decide (desc ∈ (Tasks.withCounters u ts pf).Describe))
            = true)
    ∧ (∀ (u : Int) (ts pf : Nat)
          (r' : HttpResult NetworkDiscoveryErrorQueryResponse) (c' : Bool),
        (((LogsQueries.withCounters u ts pf).Collect r' c').2.map Prod.fst).all
          (fun desc => decide (desc ∈ (LogsQueries.withCounters u ts pf).Describe))
            = true) := by
  refine ⟨rfl, rfl, ?_, ?_, ?_, ?_⟩
  · intro s r c
    simp [Tasks.Describe, tasks_collect_metrics_const]
  · intro q r' c'
    simp [LogsQueries.Describe, queries_collect_metrics_const]
  · intro u ts pf r c
    simp only [Tasks.Collect]
    cases r with
    | failure => rw [tasks_cAI_failure]; rfl
    | response status decoded =>
      by_cases hs : status = 200
      · subst hs
        cases decoded with
        | none => rw [tasks_cAI_decodeFail]; rfl
        | some v => rw [tasks_cAI_ok]; rfl
      · rw [tasks_cAI_badStatus _ _ _ _ hs]; rfl
  · intro u ts pf r' c'
    simp only [LogsQueries.Collect]
    cases r' with
    | failure => rw [queries_cAI_failure]; rfl
    | response status decoded =>
      by_cases hs : status = 200
      · subst hs
        cases decoded with
        | none => rw [queries_cAI_decodeFail]; rfl
        | some v => rw [queries_cAI_ok]; rfl
      · rw [queries_cAI_badStatus _ _ _ _ hs]; rfl

/-- Claim C9: whenever an HTTP response was obtained (non-200 status, decode
failure, or success alike), `getAndParseURL` closes the response body exactly
once before returning; a failing close is logged exactly once but never
changes the returned result; on a transport failure no body exists and none is
closed. -/
theorem body_closed_once_and_close_failure_harmless (α : Type) (r : HttpResult α)
    (c : Bool) :
    (Tasks.getAndParseURL α r c).bodyCloses = (if r.obtainedResponse then 1 else 0)
    ∧ (Tasks.getAndParseURL α r true).result = (Tasks.getAndParseURL α r false).result
    ∧ (Tasks.getAndParseURL α r c).closeFailureLogs
        = (if r.obtainedResponse && c then 1 else 0)
    ∧ (LogsQueries.getAndParseURL α r c).bodyCloses
        = (if r.obtainedResponse then 1 else 0)
    ∧ (LogsQueries.getAndParseURL α r true).result
        = (LogsQueries.getAndParseURL α r false).result
    ∧ (LogsQueries.getAndParseURL α r c).closeFailureLogs
        = (if r.obtainedResponse && c then 1 else 0) := by
  cases r with
  | failure =>
    simp [Tasks.getAndParseURL, LogsQueries.getAndParseURL, HttpResult.obtainedResponse]
  | response status decoded =>
    by_cases hs : status = 200
    · subst hs
      cases decoded <;>
        simp [Tasks.getAndParseURL, LogsQueries.getAndParseURL,
          HttpResult.obtainedResponse]
    · cases decoded <;>
        simp [Tasks.getAndParseURL, LogsQueries.getAndParseURL,
          HttpResult.obtainedResponse, hs]

/-- Claim C7 evaluated on the code: the two fetches differ in method, path and
body as described, but they do NOT share the injected client — the tasks
collector runs `s.client.Get` on the injected client while
`getNetworkDiscoveryReq` executes its request on a freshly constructed
`client := &http.Client\x7b\x7d`, ignoring the injected one.  Apart from the
request (method, path, body, header, client) the two fetch-and-parse
operations are extensionally identical. -/
theorem scrape_client_mismatch :
    Tasks.scrapeRequest.method = "GET"
    ∧ Tasks.scrapeRequest.pathSuffix = "/_tasks"
    ∧ Tasks.scrapeRequest.body = none
    ∧ Tasks.scrapeRequest.contentType = none
    ∧ Tasks.scrapeRequest.client = ClientKind.injected
    ∧ LogsQueries.scrapeRequest.method = "POST"
    ∧ LogsQueries.scrapeRequest.pathSuffix = "/elasticsearch-*/_search"
    ∧ LogsQueries.scrapeRequest.body = some networkDiscoveryQueryBody
    ∧ LogsQueries.scrapeRequest.contentType = some "application/json"
    ∧ LogsQueries.scrapeRequest.client = ClientKind.fresh
    ∧ Tasks.scrapeRequest.client ≠ LogsQueries.scrapeRequest.client
    ∧ (∀ (α : Type) (r : HttpResult α) (c : Bool),
        Tasks.getAndParseURL α r c = LogsQueries.getAndParseURL α r c) :=
  ⟨rfl, rfl, rfl, rfl, rfl, rfl, rfl, rfl, rfl, rfl, by decide,
   fun α r c => rfl⟩

end Collector
